import Mathlib

/-!
# Verification of `tensorflow/core/profiler/convert/hlo_to_tools_data.cc`

The file holds one public function, `ConvertHloProtoToToolData`, and one private helper,
`ConvertHloProtoToMemoryViewer`.  Both are embedded below as pure functions.  Everything they
call that lives outside the file (path helpers, the proto reader, the heap-simulator lookup,
the preprocessing routine and the JSON printer) is a field of `Externals`; the file system is
the `ReadBinaryProto` field.  A call returns its `std::pair<std::string, bool>` together with
the ordered list of effects it performed: error-log lines and calls of the effectful
collaborators.
-/

namespace tensorflow
namespace profiler

/-! ## Data model -/

/-- Value stored in the options map: `std::variant<int, std::string>`. -/
inductive OptionValue where
  | int (v : Int)
  | str (s : String)
  deriving DecidableEq, Repr

/-- The options map `absl::flat_hash_map<std::string, std::variant<int, std::string>>`,
as an association list read through `FindOrNull`. -/
abbrev Options := List (String × OptionValue)

/-- `gtl::FindOrNull(options, key)`: the value stored under `key`, or `none` for the null
pointer. -/
def FindOrNull (options : Options) (key : String) : Option OptionValue :=
  options.lookup key

/-- `std::get_if<std::string>(result)`: the string alternative, or `none` for the null
pointer when the variant holds an `int`. -/
def get_if_string : OptionValue → Option String
  | OptionValue.str s => some s
  | OptionValue.int _ => none

/-- A `Status` value: OK, or an error carrying its message. -/
inductive Status where
  | ok
  | error (message : String)
  deriving DecidableEq, Repr

/-- Modelled from the spec: the type `protobuf::util::JsonPrintOptions` is declared outside
this file.  The one option the file sets, and the one the specification names, is kept: whether
primitive fields with default values are emitted explicitly. -/
structure JsonPrintOptions where
  always_print_primitive_fields : Bool
  deriving DecidableEq, Repr

/-- The functions the file calls and does not define.  `HloProto` stands for `xla::HloProto`
and `PreprocessResult` for the message returned by the preprocessing routine.

* `ReadBinaryProto fname` reads and parses the file `fname` (the file system is this function);
* `ConvertHloProtoToPreprocessResult proto small_buffer_size heap_simulator_trace_id
  memory_color` is the preprocessing routine, a `StatusOr`;
* `MessageToJsonString message options` returns the text written to the output string
  together with the status; the text may be non-empty when the status is an error. -/
structure Externals (HloProto PreprocessResult : Type) where
  Dirname : String → String
  GetHloProtoFileName : String → String → String
  ReadBinaryProto : String → Except String HloProto
  GetHeapSimulatorTraceId : HloProto → Int → Int
  ConvertHloProtoToPreprocessResult : HloProto → Int → Int → Int → Except String PreprocessResult
  MessageToJsonString : PreprocessResult → JsonPrintOptions → String × Status

/-- One observable effect of a call, in program order. -/
inductive Event (HloProto PreprocessResult : Type) where
  | logError (message : String)
  | readBinaryProto (fname : String)
  | preprocess (hlo_proto : HloProto) (small_buffer_size : Int)
      (heap_simulator_trace_id : Int) (memory_color : Int)
  | messageToJsonString (message : PreprocessResult) (options : JsonPrintOptions)
  deriving DecidableEq, Repr

/-- The event is a `LOG(ERROR)` line. -/
def Event.isLogError {H P : Type} : Event H P → Bool
  | Event.logError _ => true
  | _ => false

/-- The event is a call of `ReadBinaryProto`. -/
def Event.isRead {H P : Type} : Event H P → Bool
  | Event.readBinaryProto _ => true
  | _ => false

/-- The event is a call of `ConvertHloProtoToPreprocessResult`. -/
def Event.isPreprocess {H P : Type} : Event H P → Bool
  | Event.preprocess _ _ _ _ => true
  | _ => false

/-- The event is a call of `MessageToJsonString`. -/
def Event.isJsonPrint {H P : Type} : Event H P → Bool
  | Event.messageToJsonString _ _ => true
  | _ => false

/-- What a call produces: the returned pair and the effects performed. -/
structure Outcome (HloProto PreprocessResult : Type) where
  value : String × Bool
  trace : List (Event HloProto PreprocessResult)
  deriving DecidableEq, Repr

/-- The `LOG(ERROR)` lines of a call, in order. -/
def Outcome.errorLog {H P : Type} (o : Outcome H P) : List (Event H P) :=
  o.trace.filter Event.isLogError

/-! ## The two functions -/

/-- `static constexpr int kSmallBufferSize = 16 * 1024;  // 16KB` -/
def kSmallBufferSize : Int := 16 * 1024

/-- `static constexpr int kMemorySpaceColor = 0;  // HBM` -/
def kMemorySpaceColor : Int := 0

/-- The printer options built in `ConvertHloProtoToMemoryViewer`:
`JsonPrintOptions options; options.always_print_primitive_fields = true;`. -/
def memoryViewerJsonPrintOptions : JsonPrintOptions :=
  { always_print_primitive_fields := true }

/-- `ConvertHloProtoToMemoryViewer(hlo_proto)`. -/
def ConvertHloProtoToMemoryViewer {H P : Type} (ext : Externals H P) (hlo_proto : H) :
    Outcome H P :=
  let heap_simulator_trace_id := ext.GetHeapSimulatorTraceId hlo_proto kMemorySpaceColor
  let call : Event H P :=
    Event.preprocess hlo_proto kSmallBufferSize heap_simulator_trace_id kMemorySpaceColor
  match ext.ConvertHloProtoToPreprocessResult hlo_proto kSmallBufferSize
      heap_simulator_trace_id kMemorySpaceColor with
  | Except.error message =>
    { value := ("", false)
      trace := [call,
        Event.logError ("Failed to convert HLO proto to memory viewer result: " ++ message)] }
  | Except.ok result =>
    let options := memoryViewerJsonPrintOptions
    match ext.MessageToJsonString result options with
    | (_, Status.error message) =>
      { value := ("", false)
        trace := [call, Event.messageToJsonString result options,
          Event.logError
            ("Failed to convert memory viewer result to JSON format: " ++ message)] }
    | (json_output, Status.ok) =>
      { value := (json_output, true)
        trace := [call, Event.messageToJsonString result options] }

/-- `ConvertHloProtoToToolData(xspace_paths, tool_name, options)`. -/
def ConvertHloProtoToToolData {H P : Type} (ext : Externals H P)
    (xspace_paths : List String) (tool_name : String) (options : Options) : Outcome H P :=
  match xspace_paths with
  | [] => { value := ("", false), trace := [] }
  | path0 :: _ =>
    match FindOrNull options "hlo_module_name" with
    | none =>
      { value := ("", false)
        trace := [Event.logError "Can not find HLO module name from options."] }
    | some result =>
      match get_if_string result with
      | none =>
        { value := ("", false)
          trace := [Event.logError "Can not find HLO module name from options."] }
      | some hlo_module_name =>
        if hlo_module_name = "" then
          { value := ("", false)
            trace := [Event.logError "Can not find HLO module name from options."] }
        else
          let base_dir := ext.Dirname path0
          let hlo_proto_file_name := ext.GetHloProtoFileName base_dir hlo_module_name
          match ext.ReadBinaryProto hlo_proto_file_name with
          | Except.error message =>
            { value := ("", false)
              trace := [Event.readBinaryProto hlo_proto_file_name,
                Event.logError ("Failed to read HLO proto: " ++ message)] }
          | Except.ok hlo_proto =>
            if tool_name = "memory_viewer" then
              let r := ConvertHloProtoToMemoryViewer ext hlo_proto
              { value := r.value
                trace := Event.readBinaryProto hlo_proto_file_name :: r.trace }
            else
              { value := ("", false)
                trace := [Event.readBinaryProto hlo_proto_file_name,
                  Event.logError ("Can not find tool: " ++ tool_name ++
                    ". Please update to the latest version of Tensorflow.")] }

/-- The success conditions of a call that yields the JSON text `text`: the path list is
non-empty, the options hold a non-empty string under `hlo_module_name`, the module file named
by the file-name helper is read, the tool is `memory_viewer`, preprocessing succeeds, and the
JSON printer, run with `always_print_primitive_fields` set, succeeds with output `text`. -/
def SuccessConditions {H P : Type} (ext : Externals H P) (xspace_paths : List String)
    (tool_name : String) (options : Options) (text : String) : Prop :=
  ∃ (path0 : String) (rest : List String) (name : String) (hlo_proto : H) (result : P),
    xspace_paths = path0 :: rest ∧
    FindOrNull options "hlo_module_name" = some (OptionValue.str name) ∧
    name ≠ "" ∧
    ext.ReadBinaryProto (ext.GetHloProtoFileName (ext.Dirname path0) name)
      = Except.ok hlo_proto ∧
    tool_name = "memory_viewer" ∧
    ext.ConvertHloProtoToPreprocessResult hlo_proto 16384
      (ext.GetHeapSimulatorTraceId hlo_proto 0) 0 = Except.ok result ∧
    ext.MessageToJsonString result
      { always_print_primitive_fields := true }
      = (text, Status.ok)

/-! ## A concrete instantiation, for evaluating the functions -/

/-- Concrete collaborators over `HloProto := Nat` and `PreprocessResult := Nat`.

* the parent directory of a path is the text before its last slash;
* the module file name is `<dir>/<module>.hlo_proto.pb`;
* the file system holds four module files under `/tmp/run`: `main_module` (descriptor 1),
  `bad_module` (descriptor 2, which preprocessing rejects), `odd_module` (descriptor 3, whose
  report the printer fails on after writing some text) and `aux_module` (descriptor 4); and
  one under `/tmp/run/plugins/profile/2023`: `main_module` (descriptor 5);
* the heap-simulator trace of descriptor `n` for color `c` has id `n + 6 + c`. -/
def sampleExternals : Externals Nat Nat where
  Dirname := fun path =>
    String.mk ((path.data.reverse.dropWhile (fun c => c != '/')).drop 1).reverse
  GetHloProtoFileName := fun base_dir module_name => base_dir ++ "/" ++ module_name ++ ".hlo_proto.pb"
  ReadBinaryProto := fun fname =>
    if fname = "/tmp/run/main_module.hlo_proto.pb" then Except.ok 1
    else if fname = "/tmp/run/bad_module.hlo_proto.pb" then Except.ok 2
    else if fname = "/tmp/run/odd_module.hlo_proto.pb" then Except.ok 3
    else if fname = "/tmp/run/aux_module.hlo_proto.pb" then Except.ok 4
    else if fname = "/tmp/run/plugins/profile/2023/main_module.hlo_proto.pb" then Except.ok 5
    else Except.error "file not found"
  GetHeapSimulatorTraceId := fun hlo_proto memory_color => (hlo_proto : Int) + 6 + memory_color
  ConvertHloProtoToPreprocessResult := fun hlo_proto _ heap_simulator_trace_id _ =>
    if hlo_proto = 2 then Except.error "no heap simulator trace"
    else Except.ok (hlo_proto + heap_simulator_trace_id.toNat)
  MessageToJsonString := fun message options =>
    if message = 12 then ("[partial", Status.error "cannot print")
    else if options.always_print_primitive_fields then ("[report, 0]", Status.ok)
    else ("[report]", Status.ok)

/-! ## Branch lemmas

One equation per return statement of the two functions. -/

section branches

variable {H P : Type} (ext : Externals H P)

theorem memoryViewer_preprocess_error (hlo_proto : H) (message : String)
    (h : ext.ConvertHloProtoToPreprocessResult hlo_proto kSmallBufferSize
      (ext.GetHeapSimulatorTraceId hlo_proto kMemorySpaceColor) kMemorySpaceColor
        = Except.error message) :
    ConvertHloProtoToMemoryViewer ext hlo_proto =
      { value := ("", false)
        trace := [Event.preprocess hlo_proto kSmallBufferSize
            (ext.GetHeapSimulatorTraceId hlo_proto kMemorySpaceColor) kMemorySpaceColor,
          Event.logError
            ("Failed to convert HLO proto to memory viewer result: " ++ message)] } := by
  simp only [ConvertHloProtoToMemoryViewer, h]

theorem memoryViewer_print_error (hlo_proto : H) (result : P) (written message : String)
    (h : ext.ConvertHloProtoToPreprocessResult hlo_proto kSmallBufferSize
      (ext.GetHeapSimulatorTraceId hlo_proto kMemorySpaceColor) kMemorySpaceColor
        = Except.ok result)
    (hp : ext.MessageToJsonString result memoryViewerJsonPrintOptions
        = (written, Status.error message)) :
    ConvertHloProtoToMemoryViewer ext hlo_proto =
      { value := ("", false)
        trace := [Event.preprocess hlo_proto kSmallBufferSize
            (ext.GetHeapSimulatorTraceId hlo_proto kMemorySpaceColor) kMemorySpaceColor,
          Event.messageToJsonString result memoryViewerJsonPrintOptions,
          Event.logError
            ("Failed to convert memory viewer result to JSON format: " ++ message)] } := by
  simp only [ConvertHloProtoToMemoryViewer, h, hp]

theorem memoryViewer_ok (hlo_proto : H) (result : P) (json_output : String)
    (h : ext.ConvertHloProtoToPreprocessResult hlo_proto kSmallBufferSize
      (ext.GetHeapSimulatorTraceId hlo_proto kMemorySpaceColor) kMemorySpaceColor
        = Except.ok result)
    (hp : ext.MessageToJsonString result memoryViewerJsonPrintOptions
        = (json_output, Status.ok)) :
    ConvertHloProtoToMemoryViewer ext hlo_proto =
      { value := (json_output, true)
        trace := [Event.preprocess hlo_proto kSmallBufferSize
            (ext.GetHeapSimulatorTraceId hlo_proto kMemorySpaceColor) kMemorySpaceColor,
          Event.messageToJsonString result memoryViewerJsonPrintOptions] } := by
  simp only [ConvertHloProtoToMemoryViewer, h, hp]

theorem toolData_no_module_name (path0 : String) (rest : List String) (tool_name : String)
    (options : Options)
    (h : ∀ name, name ≠ "" →
      FindOrNull options "hlo_module_name" ≠ some (OptionValue.str name)) :
    ConvertHloProtoToToolData ext (path0 :: rest) tool_name options =
      { value := ("", false)
        trace := [Event.logError "Can not find HLO module name from options."] } := by
  unfold ConvertHloProtoToToolData
  cases hf : FindOrNull options "hlo_module_name" with
  | none => rfl
  | some v =>
    cases v with
    | int n => rfl
    | str s =>
      by_cases hs : s = ""
      · simp [get_if_string, hs]
      · exact absurd hf (h s hs)

theorem toolData_read_error (path0 : String) (rest : List String) (tool_name : String)
    (options : Options) (name message : String)
    (hf : FindOrNull options "hlo_module_name" = some (OptionValue.str name))
    (hne : name ≠ "")
    (hr : ext.ReadBinaryProto (ext.GetHloProtoFileName (ext.Dirname path0) name)
        = Except.error message) :
    ConvertHloProtoToToolData ext (path0 :: rest) tool_name options =
      { value := ("", false)
        trace := [Event.readBinaryProto (ext.GetHloProtoFileName (ext.Dirname path0) name),
          Event.logError ("Failed to read HLO proto: " ++ message)] } := by
  simp [ConvertHloProtoToToolData, hf, get_if_string, hne, hr]

theorem toolData_unknown_tool (path0 : String) (rest : List String) (tool_name : String)
    (options : Options) (name : String) (hlo_proto : H)
    (hf : FindOrNull options "hlo_module_name" = some (OptionValue.str name))
    (hne : name ≠ "")
    (hr : ext.ReadBinaryProto (ext.GetHloProtoFileName (ext.Dirname path0) name)
        = Except.ok hlo_proto)
    (ht : tool_name ≠ "memory_viewer") :
    ConvertHloProtoToToolData ext (path0 :: rest) tool_name options =
      { value := ("", false)
        trace := [Event.readBinaryProto (ext.GetHloProtoFileName (ext.Dirname path0) name),
          Event.logError ("Can not find tool: " ++ tool_name ++
            ". Please update to the latest version of Tensorflow.")] } := by
  simp [ConvertHloProtoToToolData, hf, get_if_string, hne, hr, ht]

theorem toolData_memory_viewer (path0 : String) (rest : List String)
    (options : Options) (name : String) (hlo_proto : H)
    (hf : FindOrNull options "hlo_module_name" = some (OptionValue.str name))
    (hne : name ≠ "")
    (hr : ext.ReadBinaryProto (ext.GetHloProtoFileName (ext.Dirname path0) name)
        = Except.ok hlo_proto) :
    ConvertHloProtoToToolData ext (path0 :: rest) "memory_viewer" options =
      { value := (ConvertHloProtoToMemoryViewer ext hlo_proto).value
        trace := Event.readBinaryProto (ext.GetHloProtoFileName (ext.Dirname path0) name) ::
          (ConvertHloProtoToMemoryViewer ext hlo_proto).trace } := by
  simp [ConvertHloProtoToToolData, hf, get_if_string, hne, hr]

end branches

/-! ## Theorems -/

section general

variable {H P : Type} (ext : Externals H P)

theorem kSmallBufferSize_eq : kSmallBufferSize = 16384 := by decide

theorem kMemorySpaceColor_eq : kMemorySpaceColor = 0 := rfl

theorem memoryViewerJsonPrintOptions_eq :
    memoryViewerJsonPrintOptions =
      { always_print_primitive_fields := true } := rfl

/-- A run that meets the success conditions returns the printed text and performs exactly
the read, the preprocessing call and the printer call. -/
theorem toolData_of_successConditions (xspace_paths : List String) (tool_name : String)
    (options : Options) (text : String)
    (h : SuccessConditions ext xspace_paths tool_name options text) :
    (ConvertHloProtoToToolData ext xspace_paths tool_name options).value = (text, true) := by
  obtain ⟨path0, rest, name, hlo_proto, result, hp, hf, hne, hr, ht, hc, hj⟩ := h
  subst hp
  subst ht
  rw [toolData_memory_viewer ext path0 rest options name hlo_proto hf hne hr]
  rw [← kSmallBufferSize_eq, ← kMemorySpaceColor_eq] at hc
  rw [← memoryViewerJsonPrintOptions_eq] at hj
  rw [memoryViewer_ok ext hlo_proto result text hc hj]

/-- The helper returns the flag true only when preprocessing and printing both succeed. -/
theorem memoryViewer_flag_true (hlo_proto : H)
    (h : (ConvertHloProtoToMemoryViewer ext hlo_proto).value.2 = true) :
    ∃ (result : P) (text : String),
      ext.ConvertHloProtoToPreprocessResult hlo_proto kSmallBufferSize
        (ext.GetHeapSimulatorTraceId hlo_proto kMemorySpaceColor) kMemorySpaceColor
          = Except.ok result ∧
      ext.MessageToJsonString result memoryViewerJsonPrintOptions = (text, Status.ok) := by
  cases hc : ext.ConvertHloProtoToPreprocessResult hlo_proto kSmallBufferSize
      (ext.GetHeapSimulatorTraceId hlo_proto kMemorySpaceColor) kMemorySpaceColor with
  | error message =>
    rw [memoryViewer_preprocess_error ext hlo_proto message hc] at h
    simp at h
  | ok result =>
    rcases hj : ext.MessageToJsonString result memoryViewerJsonPrintOptions with ⟨text, st⟩
    cases st with
    | ok => exact ⟨result, text, rfl, hj⟩
    | error message =>
      rw [memoryViewer_print_error ext hlo_proto result text message hc hj] at h
      simp at h

/-- A run that returns the flag true meets the success conditions for some text. -/
theorem successConditions_of_flag (xspace_paths : List String) (tool_name : String)
    (options : Options)
    (h : (ConvertHloProtoToToolData ext xspace_paths tool_name options).value.2 = true) :
    ∃ text, SuccessConditions ext xspace_paths tool_name options text := by
  cases xspace_paths with
  | nil => simp [ConvertHloProtoToToolData] at h
  | cons path0 rest =>
    by_cases hn : ∀ name, name ≠ "" →
        FindOrNull options "hlo_module_name" ≠ some (OptionValue.str name)
    · rw [toolData_no_module_name ext path0 rest tool_name options hn] at h
      simp at h
    · push_neg at hn
      obtain ⟨name, hne, hf⟩ := hn
      cases hr : ext.ReadBinaryProto (ext.GetHloProtoFileName (ext.Dirname path0) name) with
      | error message =>
        rw [toolData_read_error ext path0 rest tool_name options name message hf hne hr] at h
        simp at h
      | ok hlo_proto =>
        by_cases ht : tool_name = "memory_viewer"
        · subst ht
          rw [toolData_memory_viewer ext path0 rest options name hlo_proto hf hne hr] at h
          obtain ⟨result, text, hc, hj⟩ := memoryViewer_flag_true ext hlo_proto h
          rw [kSmallBufferSize_eq, kMemorySpaceColor_eq] at hc
          rw [memoryViewerJsonPrintOptions_eq] at hj
          exact ⟨text, path0, rest, name, hlo_proto, result, rfl, hf, hne, hr, rfl, hc, hj⟩
        · rw [toolData_unknown_tool ext path0 rest tool_name options name hlo_proto
            hf hne hr ht] at h
          simp at h

/-- The three ways the helper can end, each with its full outcome. -/
theorem memoryViewer_cases (hlo_proto : H) :
    (∃ message,
      ext.ConvertHloProtoToPreprocessResult hlo_proto kSmallBufferSize
        (ext.GetHeapSimulatorTraceId hlo_proto kMemorySpaceColor) kMemorySpaceColor
          = Except.error message ∧
      ConvertHloProtoToMemoryViewer ext hlo_proto =
        { value := ("", false)
          trace := [Event.preprocess hlo_proto kSmallBufferSize
              (ext.GetHeapSimulatorTraceId hlo_proto kMemorySpaceColor) kMemorySpaceColor,
            Event.logError
              ("Failed to convert HLO proto to memory viewer result: " ++ message)] }) ∨
    (∃ result written message,
      ext.ConvertHloProtoToPreprocessResult hlo_proto kSmallBufferSize
        (ext.GetHeapSimulatorTraceId hlo_proto kMemorySpaceColor) kMemorySpaceColor
          = Except.ok result ∧
      ext.MessageToJsonString result memoryViewerJsonPrintOptions
        = (written, Status.error message) ∧
      ConvertHloProtoToMemoryViewer ext hlo_proto =
        { value := ("", false)
          trace := [Event.preprocess hlo_proto kSmallBufferSize
              (ext.GetHeapSimulatorTraceId hlo_proto kMemorySpaceColor) kMemorySpaceColor,
            Event.messageToJsonString result memoryViewerJsonPrintOptions,
            Event.logError
              ("Failed to convert memory viewer result to JSON format: " ++ message)] }) ∨
    (∃ result json_output,
      ext.ConvertHloProtoToPreprocessResult hlo_proto kSmallBufferSize
        (ext.GetHeapSimulatorTraceId hlo_proto kMemorySpaceColor) kMemorySpaceColor
          = Except.ok result ∧
      ext.MessageToJsonString result memoryViewerJsonPrintOptions
        = (json_output, Status.ok) ∧
      ConvertHloProtoToMemoryViewer ext hlo_proto =
        { value := (json_output, true)
          trace := [Event.preprocess hlo_proto kSmallBufferSize
              (ext.GetHeapSimulatorTraceId hlo_proto kMemorySpaceColor) kMemorySpaceColor,
            Event.messageToJsonString result memoryViewerJsonPrintOptions] }) := by
  cases hc : ext.ConvertHloProtoToPreprocessResult hlo_proto kSmallBufferSize
      (ext.GetHeapSimulatorTraceId hlo_proto kMemorySpaceColor) kMemorySpaceColor with
  | error message =>
    exact Or.inl ⟨message, rfl, memoryViewer_preprocess_error ext hlo_proto message hc⟩
  | ok result =>
    rcases hj : ext.MessageToJsonString result memoryViewerJsonPrintOptions with ⟨text, st⟩
    cases st with
    | ok =>
      exact Or.inr (Or.inr ⟨result, text, rfl, hj,
        memoryViewer_ok ext hlo_proto result text hc hj⟩)
    | error message =>
      exact Or.inr (Or.inl ⟨result, text, message, rfl, hj,
        memoryViewer_print_error ext hlo_proto result text message hc hj⟩)

/-- The ways a call with a non-empty path list can end, each with its full outcome. -/
theorem toolData_cases (path0 : String) (rest : List String) (tool_name : String)
    (options : Options) :
    ((∀ name, name ≠ "" →
        FindOrNull options "hlo_module_name" ≠ some (OptionValue.str name)) ∧
      ConvertHloProtoToToolData ext (path0 :: rest) tool_name options =
        { value := ("", false)
          trace := [Event.logError "Can not find HLO module name from options."] }) ∨
    (∃ name, FindOrNull options "hlo_module_name" = some (OptionValue.str name) ∧
      name ≠ "" ∧
      ((∃ message,
          ext.ReadBinaryProto (ext.GetHloProtoFileName (ext.Dirname path0) name)
            = Except.error message ∧
          ConvertHloProtoToToolData ext (path0 :: rest) tool_name options =
            { value := ("", false)
              trace := [Event.readBinaryProto
                  (ext.GetHloProtoFileName (ext.Dirname path0) name),
                Event.logError ("Failed to read HLO proto: " ++ message)] }) ∨
        (∃ hlo_proto,
          ext.ReadBinaryProto (ext.GetHloProtoFileName (ext.Dirname path0) name)
            = Except.ok hlo_proto ∧
          tool_name ≠ "memory_viewer" ∧
          ConvertHloProtoToToolData ext (path0 :: rest) tool_name options =
            { value := ("", false)
              trace := [Event.readBinaryProto
                  (ext.GetHloProtoFileName (ext.Dirname path0) name),
                Event.logError ("Can not find tool: " ++ tool_name ++
                  ". Please update to the latest version of Tensorflow.")] }) ∨
        (∃ hlo_proto,
          ext.ReadBinaryProto (ext.GetHloProtoFileName (ext.Dirname path0) name)
            = Except.ok hlo_proto ∧
          tool_name = "memory_viewer" ∧
          ConvertHloProtoToToolData ext (path0 :: rest) tool_name options =
            { value := (ConvertHloProtoToMemoryViewer ext hlo_proto).value
              trace := Event.readBinaryProto
                  (ext.GetHloProtoFileName (ext.Dirname path0) name) ::
                (ConvertHloProtoToMemoryViewer ext hlo_proto).trace }))) := by
  by_cases hn : ∀ name, name ≠ "" →
      FindOrNull options "hlo_module_name" ≠ some (OptionValue.str name)
  · exact Or.inl ⟨hn, toolData_no_module_name ext path0 rest tool_name options hn⟩
  · push_neg at hn
    obtain ⟨name, hne, hf⟩ := hn
    refine Or.inr ⟨name, hf, hne, ?_⟩
    cases hr : ext.ReadBinaryProto (ext.GetHloProtoFileName (ext.Dirname path0) name) with
    | error message =>
      exact Or.inl ⟨message, rfl,
        toolData_read_error ext path0 rest tool_name options name message hf hne hr⟩
    | ok hlo_proto =>
      by_cases ht : tool_name = "memory_viewer"
      · subst ht
        exact Or.inr (Or.inr ⟨hlo_proto, rfl, rfl,
          toolData_memory_viewer ext path0 rest options name hlo_proto hf hne hr⟩)
      · exact Or.inr (Or.inl ⟨hlo_proto, rfl, ht,
          toolData_unknown_tool ext path0 rest tool_name options name hlo_proto hf hne hr ht⟩)

end general

/-- C1: the flag is true if and only if the six success conditions hold (non-empty path
list, non-empty string module name, successful read of the constructed file, tool name
memory_viewer, successful preprocessing, successful JSON printing); and the call returns
the pair (text, true) exactly when the conditions hold with text being the JSON printer
output for the preprocessing result under always_print_primitive_fields = true. -/
theorem ConvertHloProtoToToolData_success_iff {H P : Type} (ext : Externals H P)
    (xspace_paths : List String) (tool_name : String) (options : Options) :
    ((ConvertHloProtoToToolData ext xspace_paths tool_name options).value.2 = true ↔
      ∃ text, SuccessConditions ext xspace_paths tool_name options text) ∧
    (∀ text, SuccessConditions ext xspace_paths tool_name options text ↔
      (ConvertHloProtoToToolData ext xspace_paths tool_name options).value = (text, true)) := by
  have hfwd := toolData_of_successConditions ext xspace_paths tool_name options
  have hbwd := successConditions_of_flag ext xspace_paths tool_name options
  refine ⟨⟨hbwd, ?_⟩, fun text => ⟨hfwd text, ?_⟩⟩
  · rintro ⟨text, ht⟩
    rw [hfwd text ht]
  · intro hv
    obtain ⟨text2, h2⟩ := hbwd (by rw [hv])
    have := hfwd text2 h2
    rw [hv] at this
    have heq : text = text2 := congrArg Prod.fst this
    rw [heq]
    exact h2

/-- C2: with an empty path list, the function returns the empty string and the flag false,
for every tool name, options map and collaborators. -/
theorem ConvertHloProtoToToolData_empty_paths {H P : Type} (ext : Externals H P)
    (tool_name : String) (options : Options) :
    (ConvertHloProtoToToolData ext [] tool_name options).value = ("", false) := by
  rfl

/-- C3: when the options map has no entry under hlo_module_name, or the entry is an
integer, or the entry is the empty string, the function returns the empty string and the
flag false, for every path list, tool name and collaborators (file system included). -/
theorem ConvertHloProtoToToolData_invalid_module_name {H P : Type} (ext : Externals H P)
    (xspace_paths : List String) (tool_name : String) (options : Options)
    (h : FindOrNull options "hlo_module_name" = none ∨
      (∃ v, FindOrNull options "hlo_module_name" = some (OptionValue.int v)) ∨
      FindOrNull options "hlo_module_name" = some (OptionValue.str "")) :
    (ConvertHloProtoToToolData ext xspace_paths tool_name options).value = ("", false) := by
  cases xspace_paths with
  | nil => rfl
  | cons path0 rest =>
    rw [toolData_no_module_name ext path0 rest tool_name options]
    intro name hne hf
    rcases h with h | ⟨v, h⟩ | h
    · rw [h] at hf
      exact Option.noConfusion hf
    · rw [h] at hf
      exact OptionValue.noConfusion (Option.some.inj hf)
    · rw [h] at hf
      exact hne (OptionValue.str.inj (Option.some.inj hf)).symm

/-- Witness for C3: a missing entry, an integer entry and an empty-string entry, each with
the tool memory_viewer and a path whose directory holds loadable modules. -/
theorem ConvertHloProtoToToolData_invalid_module_name_witness :
    (ConvertHloProtoToToolData sampleExternals ["/tmp/run/x.pb"] "memory_viewer"
      []).value = ("", false) ∧
    (ConvertHloProtoToToolData sampleExternals ["/tmp/run/x.pb"] "memory_viewer"
      [("hlo_module_name", OptionValue.int 7)]).value = ("", false) ∧
    (ConvertHloProtoToToolData sampleExternals ["/tmp/run/x.pb"] "memory_viewer"
      [("hlo_module_name", OptionValue.str "")]).value = ("", false) :=
  ⟨ConvertHloProtoToToolData_invalid_module_name sampleExternals ["/tmp/run/x.pb"]
      "memory_viewer" [] (Or.inl (by decide)),
   ConvertHloProtoToToolData_invalid_module_name sampleExternals ["/tmp/run/x.pb"]
      "memory_viewer" [("hlo_module_name", OptionValue.int 7)]
      (Or.inr (Or.inl ⟨7, by decide⟩)),
   ConvertHloProtoToToolData_invalid_module_name sampleExternals ["/tmp/run/x.pb"]
      "memory_viewer" [("hlo_module_name", OptionValue.str "")]
      (Or.inr (Or.inr (by decide)))⟩

/-- C4: for a tool name different from memory_viewer, with a non-empty path list, a
non-empty string module name and a module file that loads, the function returns the empty
string and the flag false, and no call of the preprocessing routine occurs. -/
theorem ConvertHloProtoToToolData_unknown_tool {H P : Type} (ext : Externals H P)
    (path0 : String) (rest : List String) (tool_name : String) (options : Options)
    (name : String) (hlo_proto : H)
    (ht : tool_name ≠ "memory_viewer")
    (hf : FindOrNull options "hlo_module_name" = some (OptionValue.str name))
    (hne : name ≠ "")
    (hr : ext.ReadBinaryProto (ext.GetHloProtoFileName (ext.Dirname path0) name)
        = Except.ok hlo_proto) :
    (ConvertHloProtoToToolData ext (path0 :: rest) tool_name options).value = ("", false) ∧
    ∀ e ∈ (ConvertHloProtoToToolData ext (path0 :: rest) tool_name options).trace,
      e.isPreprocess = false := by
  rw [toolData_unknown_tool ext path0 rest tool_name options name hlo_proto hf hne hr ht]
  refine ⟨rfl, ?_⟩
  intro e he
  simp only [List.mem_cons, List.mem_singleton, List.not_mem_nil, or_false] at he
  rcases he with he | he <;> subst he <;> rfl

/-- Witness for C4: a case variant, a proper prefix and a string containing the tool name,
each with the loadable module main_module. -/
theorem ConvertHloProtoToToolData_unknown_tool_witness :
    ("Memory_Viewer" ≠ "memory_viewer" ∧ "memory" ≠ "memory_viewer" ∧
      "memory_viewer_v2" ≠ "memory_viewer") ∧
    ((ConvertHloProtoToToolData sampleExternals ["/tmp/run/x.pb", "/tmp/run/y.pb"]
        "Memory_Viewer" [("hlo_module_name", OptionValue.str "main_module")]).value
          = ("", false) ∧
      ∀ e ∈ (ConvertHloProtoToToolData sampleExternals ["/tmp/run/x.pb", "/tmp/run/y.pb"]
        "Memory_Viewer" [("hlo_module_name", OptionValue.str "main_module")]).trace,
        e.isPreprocess = false) ∧
    (ConvertHloProtoToToolData sampleExternals ["/tmp/run/x.pb"]
        "memory" [("hlo_module_name", OptionValue.str "main_module")]).value
          = ("", false) ∧
    (ConvertHloProtoToToolData sampleExternals ["/tmp/run/x.pb"]
        "memory_viewer_v2" [("hlo_module_name", OptionValue.str "main_module")]).value
          = ("", false) :=
  ⟨⟨by decide, by decide, by decide⟩,
   ConvertHloProtoToToolData_unknown_tool sampleExternals "/tmp/run/x.pb" ["/tmp/run/y.pb"]
      "Memory_Viewer" [("hlo_module_name", OptionValue.str "main_module")] "main_module" 1
      (by decide) (by decide) (by decide) rfl,
   (ConvertHloProtoToToolData_unknown_tool sampleExternals "/tmp/run/x.pb" []
      "memory" [("hlo_module_name", OptionValue.str "main_module")] "main_module" 1
      (by decide) (by decide) (by decide) rfl).1,
   (ConvertHloProtoToToolData_unknown_tool sampleExternals "/tmp/run/x.pb" []
      "memory_viewer_v2" [("hlo_module_name", OptionValue.str "main_module")] "main_module" 1
      (by decide) (by decide) (by decide) rfl).1⟩

/-- C5: for a non-empty path list, any tool name and a non-empty string module name, when
reading the module proto at the constructed file name fails, the function returns the
empty string and the flag false, and the trace holds exactly one read, of that file. -/
theorem ConvertHloProtoToToolData_read_failure {H P : Type} (ext : Externals H P)
    (path0 : String) (rest : List String) (tool_name : String) (options : Options)
    (name message : String)
    (hf : FindOrNull options "hlo_module_name" = some (OptionValue.str name))
    (hne : name ≠ "")
    (hr : ext.ReadBinaryProto (ext.GetHloProtoFileName (ext.Dirname path0) name)
        = Except.error message) :
    (ConvertHloProtoToToolData ext (path0 :: rest) tool_name options).value = ("", false) ∧
    (ConvertHloProtoToToolData ext (path0 :: rest) tool_name options).trace.filter
        Event.isRead
      = [Event.readBinaryProto (ext.GetHloProtoFileName (ext.Dirname path0) name)] ∧
    (ConvertHloProtoToToolData ext (path0 :: rest) tool_name options).trace.countP
        Event.isRead = 1 := by
  rw [toolData_read_error ext path0 rest tool_name options name message hf hne hr]
  exact ⟨rfl, rfl, rfl⟩

/-- Witness for C5: the module ghost_module has no file; the tool is memory_viewer. -/
theorem ConvertHloProtoToToolData_read_failure_witness :
    sampleExternals.ReadBinaryProto
        (sampleExternals.GetHloProtoFileName (sampleExternals.Dirname "/tmp/run/x.pb")
          "ghost_module") = Except.error "file not found" ∧
    (ConvertHloProtoToToolData sampleExternals ["/tmp/run/x.pb"] "memory_viewer"
      [("hlo_module_name", OptionValue.str "ghost_module")]).value = ("", false) ∧
    (ConvertHloProtoToToolData sampleExternals ["/tmp/run/x.pb"] "memory_viewer"
      [("hlo_module_name", OptionValue.str "ghost_module")]).trace.countP Event.isRead = 1 :=
  have h := ConvertHloProtoToToolData_read_failure sampleExternals "/tmp/run/x.pb" []
    "memory_viewer" [("hlo_module_name", OptionValue.str "ghost_module")] "ghost_module"
    "file not found" (by decide) (by decide) rfl
  ⟨rfl, h.1, h.2.2⟩

/-- C7 fails as stated: for descriptor 1 the helper passes the looked-up trace id 7 as third
argument and the memory-space color 0 as fourth; the two differ. -/
theorem ConvertHloProtoToMemoryViewer_color_is_not_trace_id :
    (ConvertHloProtoToMemoryViewer sampleExternals 1).trace.filter Event.isPreprocess
        = [Event.preprocess 1 16384 7 0] ∧
    sampleExternals.GetHeapSimulatorTraceId 1 0 = 7 ∧
    sampleExternals.GetHeapSimulatorTraceId 1 0 ≠ 0 := by
  decide

/-- C7, amended: for every descriptor the helper calls the preprocessing routine exactly
once, with the descriptor, the small-buffer threshold 16384, the heap-simulator trace id
looked up for the HBM memory-space identifier 0, and, as fourth argument, that memory-space
identifier 0 itself (the key of the lookup, not its result). -/
theorem ConvertHloProtoToMemoryViewer_preprocess_call {H P : Type} (ext : Externals H P)
    (hlo_proto : H) :
    (ConvertHloProtoToMemoryViewer ext hlo_proto).trace.filter Event.isPreprocess
      = [Event.preprocess hlo_proto 16384 (ext.GetHeapSimulatorTraceId hlo_proto 0) 0] := by
  rw [← kSmallBufferSize_eq, ← kMemorySpaceColor_eq]
  rcases memoryViewer_cases ext hlo_proto with ⟨_, _, h⟩ | ⟨_, _, _, _, _, h⟩ | ⟨_, _, _, _, h⟩ <;>
    rw [h] <;> rfl

/-- C8 fails as stated: a call with an empty path list returns the failure flag and appends
nothing to the error log. -/
theorem ConvertHloProtoToToolData_silent_on_empty_paths :
    (ConvertHloProtoToToolData sampleExternals [] "memory_viewer"
      [("hlo_module_name", OptionValue.str "main_module")]).value = ("", false) ∧
    (ConvertHloProtoToToolData sampleExternals [] "memory_viewer"
      [("hlo_module_name", OptionValue.str "main_module")]).errorLog.length = 0 := by
  decide

/-- C8, amended: a failing call with a non-empty path list appends exactly one error
message to the log; a successful call appends none. -/
theorem ConvertHloProtoToToolData_error_log {H P : Type} (ext : Externals H P)
    (xspace_paths : List String) (tool_name : String) (options : Options) :
    (xspace_paths ≠ [] →
      (ConvertHloProtoToToolData ext xspace_paths tool_name options).value.2 = false →
      (ConvertHloProtoToToolData ext xspace_paths tool_name options).errorLog.length = 1) ∧
    ((ConvertHloProtoToToolData ext xspace_paths tool_name options).value.2 = true →
      (ConvertHloProtoToToolData ext xspace_paths tool_name options).errorLog.length = 0) := by
  cases xspace_paths with
  | nil =>
    refine ⟨fun h => absurd rfl h, fun h => ?_⟩
    simp [ConvertHloProtoToToolData] at h
  | cons path0 rest =>
    have key :
        ((ConvertHloProtoToToolData ext (path0 :: rest) tool_name options).value.2 = false ∧
          (ConvertHloProtoToToolData ext (path0 :: rest) tool_name options).errorLog.length
            = 1) ∨
        ((ConvertHloProtoToToolData ext (path0 :: rest) tool_name options).value.2 = true ∧
          (ConvertHloProtoToToolData ext (path0 :: rest) tool_name options).errorLog.length
            = 0) := by
      rcases toolData_cases ext path0 rest tool_name options with
        ⟨_, h⟩ | ⟨name, _, _, ⟨_, _, h⟩ | ⟨_, _, _, h⟩ | ⟨hlo_proto, _, _, h⟩⟩
      · rw [h]; exact Or.inl ⟨rfl, rfl⟩
      · rw [h]; exact Or.inl ⟨rfl, rfl⟩
      · rw [h]; exact Or.inl ⟨rfl, rfl⟩
      · rw [h]
        rcases memoryViewer_cases ext hlo_proto with
          ⟨_, _, hm⟩ | ⟨_, _, _, _, _, hm⟩ | ⟨_, _, _, _, hm⟩
        · rw [hm]; exact Or.inl ⟨rfl, rfl⟩
        · rw [hm]; exact Or.inl ⟨rfl, rfl⟩
        · rw [hm]; exact Or.inr ⟨rfl, rfl⟩
    refine ⟨fun _ hv => ?_, fun hv => ?_⟩
    · rcases key with ⟨_, hl⟩ | ⟨ht, _⟩
      · exact hl
      · rw [hv] at ht
        exact Bool.noConfusion ht
    · rcases key with ⟨hfalse, _⟩ | ⟨_, hl⟩
      · rw [hv] at hfalse
        exact Bool.noConfusion hfalse
      · exact hl

/-- C10: with the tool memory_viewer and a module descriptor that loads, when preprocessing
returns an error, or succeeds while the JSON printer returns an error (whatever text it
wrote before failing), the call returns the empty string and the flag false; and when
preprocessing returns an error the trace holds no call of the JSON printer. -/
theorem ConvertHloProtoToToolData_memory_viewer_failure {H P : Type} (ext : Externals H P)
    (path0 : String) (rest : List String) (options : Options)
    (name : String) (hlo_proto : H)
    (hf : FindOrNull options "hlo_module_name" = some (OptionValue.str name))
    (hne : name ≠ "")
    (hr : ext.ReadBinaryProto (ext.GetHloProtoFileName (ext.Dirname path0) name)
        = Except.ok hlo_proto)
    (hfail :
      (∃ message, ext.ConvertHloProtoToPreprocessResult hlo_proto 16384
          (ext.GetHeapSimulatorTraceId hlo_proto 0) 0 = Except.error message) ∨
      (∃ result written message,
        ext.ConvertHloProtoToPreprocessResult hlo_proto 16384
          (ext.GetHeapSimulatorTraceId hlo_proto 0) 0 = Except.ok result ∧
        ext.MessageToJsonString result
          { always_print_primitive_fields := true }
          = (written, Status.error message))) :
    (ConvertHloProtoToToolData ext (path0 :: rest) "memory_viewer" options).value
        = ("", false) ∧
    ((∃ message, ext.ConvertHloProtoToPreprocessResult hlo_proto 16384
          (ext.GetHeapSimulatorTraceId hlo_proto 0) 0 = Except.error message) →
      ∀ e ∈ (ConvertHloProtoToToolData ext (path0 :: rest) "memory_viewer" options).trace,
        e.isJsonPrint = false) := by
  rw [toolData_memory_viewer ext path0 rest options name hlo_proto hf hne hr]
  constructor
  · rcases hfail with ⟨message, hc⟩ | ⟨result, written, message, hc, hj⟩
    · rw [← kSmallBufferSize_eq, ← kMemorySpaceColor_eq] at hc
      rw [memoryViewer_preprocess_error ext hlo_proto message hc]
    · rw [← kSmallBufferSize_eq, ← kMemorySpaceColor_eq] at hc
      rw [← memoryViewerJsonPrintOptions_eq] at hj
      rw [memoryViewer_print_error ext hlo_proto result written message hc hj]
  · rintro ⟨message, hc⟩ e he
    rw [← kSmallBufferSize_eq, ← kMemorySpaceColor_eq] at hc
    rw [memoryViewer_preprocess_error ext hlo_proto message hc] at he
    simp only [List.mem_cons, List.mem_singleton, List.not_mem_nil, or_false] at he
    rcases he with he | he | he <;> subst he <;> rfl

/-- Witness for C10: bad_module is rejected by preprocessing; for odd_module the printer
writes some text and then fails, and that text is not returned. -/
theorem ConvertHloProtoToToolData_memory_viewer_failure_witness :
    ((ConvertHloProtoToToolData sampleExternals ["/tmp/run/x.pb"] "memory_viewer"
        [("hlo_module_name", OptionValue.str "bad_module")]).value = ("", false) ∧
      ∀ e ∈ (ConvertHloProtoToToolData sampleExternals ["/tmp/run/x.pb"] "memory_viewer"
        [("hlo_module_name", OptionValue.str "bad_module")]).trace, e.isJsonPrint = false) ∧
    sampleExternals.MessageToJsonString 12
        { always_print_primitive_fields := true }
      = ("[partial", Status.error "cannot print") ∧
    (ConvertHloProtoToToolData sampleExternals ["/tmp/run/x.pb"] "memory_viewer"
        [("hlo_module_name", OptionValue.str "odd_module")]).value = ("", false) :=
  have hbad := ConvertHloProtoToToolData_memory_viewer_failure sampleExternals
    "/tmp/run/x.pb" [] [("hlo_module_name", OptionValue.str "bad_module")] "bad_module" 2
    (by decide) (by decide) rfl (Or.inl ⟨"no heap simulator trace", rfl⟩)
  have hodd := ConvertHloProtoToToolData_memory_viewer_failure sampleExternals
    "/tmp/run/x.pb" [] [("hlo_module_name", OptionValue.str "odd_module")] "odd_module" 3
    (by decide) (by decide) rfl (Or.inr ⟨12, "[partial", "cannot print", rfl, rfl⟩)
  ⟨⟨hbad.1, hbad.2 ⟨"no heap simulator trace", rfl⟩⟩, rfl, hodd.1⟩

end profiler
end tensorflow
